import Mathlib

/-!
# Verification of the cython-poc license issuance/validation core

Shallow embedding of the repository's licensing core:

* `src/server-application/models/license_model.py`, `utils/crypto_utils.py`,
  `services/license_service.py` (issuer side), and
* `src/client-application/models/license_model.py`, `utils/machine_utils.py`,
  `services/license_service.py`, `controllers/app_controller.py` (verifier side).

Python exceptions are modelled with `Except PyError`; `try/except` blocks
are modelled by explicit error-matching.  File reads, the clock and the
machine identity are inputs of the embedded functions, mirroring the
spec's collaborator interfaces.  The cryptographic library primitives
(RSA keys, PKCS#1 v1.5 signing, SHA-256, base64) are modelled as concrete
executable functions carrying the properties the code relies on:
determinism of sign, verification success exactly on a matching
signature, `ValueError` on malformed encodings / mismatches, and
`TypeError` when `base64.b64decode` receives `None`.
-/

/-- Model of the Python exception classes raised or caught by this code.
`jsonDecodeError` is a subclass of `ValueError` in Python;
`fileNotFoundError` is a subclass of `OSError` (not of `ValueError`). -/
inductive PyError : Type
  | valueError : PyError
  | typeError : PyError
  | jsonDecodeError : PyError
  | fileNotFoundError (msg : String) : PyError
  | fileExistsError : PyError
  | osError : PyError
  | keyError : PyError
  deriving DecidableEq, Repr

/-- Membership in Python's `ValueError` class (`json.JSONDecodeError`
and `binascii.Error` are subclasses). -/
def PyError.isValueErrorClass : PyError → Bool
  | .valueError => true
  | .jsonDecodeError => true
  | _ => false

/-- Membership in Python's `TypeError` class. -/
def PyError.isTypeErrorClass : PyError → Bool
  | .typeError => true
  | _ => false

/-- Model of Python's `str(e)` on an exception. -/
def PyError.pyStr : PyError → String
  | .valueError => "ValueError"
  | .typeError => "TypeError"
  | .jsonDecodeError => "Expecting value"
  | .fileNotFoundError msg => msg
  | .fileExistsError => "Keys already exist. Use --force to overwrite."
  | .osError => "OSError"
  | .keyError => "KeyError"

instance exceptDecEq {ε α : Type} [DecidableEq ε] [DecidableEq α] : DecidableEq (Except ε α)
  | .ok a, .ok b =>
    match decEq a b with
    | isTrue h => isTrue (by rw [h])
    | isFalse h => isFalse (by intro hc; cases hc; exact h rfl)
  | .ok _, .error _ => isFalse (by intro hc; cases hc)
  | .error _, .ok _ => isFalse (by intro hc; cases hc)
  | .error e, .error f =>
    match decEq e f with
    | isTrue h => isTrue (by rw [h])
    | isFalse h => isFalse (by intro hc; cases hc; exact h rfl)

/-- Model of a `try: ... except (ValueError, TypeError): return False`
wrapper around a computation producing a `Bool`: those two exception
classes are converted to `False`, every other exception propagates. -/
def exceptValueType (m : Except PyError Bool) : Except PyError Bool :=
  match m with
  | .error e => if e.isValueErrorClass || e.isTypeErrorClass then .ok false else .error e
  | .ok b => .ok b

/-! ## String helpers (kernel-reducible models of the Python primitives) -/

/-- Lexicographic comparison of character lists by code point, the order
Python uses to compare `str` values (used by `sorted`/`sort_keys`). -/
def strCharsLe : List Char → List Char → Bool
  | [], _ => true
  | _ :: _, [] => false
  | c :: cs, d :: ds =>
    if c.toNat < d.toNat then true
    else if d.toNat < c.toNat then false
    else strCharsLe cs ds

/-- `a ≤ b` on strings by Unicode code point, as Python compares `str`. -/
def strLeb (a b : String) : Bool := strCharsLe a.toList b.toList

/-- Key order on dict items, used by `json.dumps(..., sort_keys=True)`. -/
def keyLe {α : Type} (a b : String × α) : Prop := strLeb a.1 b.1 = true

instance {α : Type} : DecidableRel (keyLe (α := α)) :=
  fun a b => inferInstanceAs (Decidable (strLeb a.1 b.1 = true))

/-- Model of Python's `str.lower()` on a single character (the code only
compares ASCII MAC addresses and hostnames). -/
def pyCharLower (c : Char) : Char :=
  if 65 ≤ c.toNat ∧ c.toNat ≤ 90 then Char.ofNat (c.toNat + 32) else c

/-- Model of Python's `str.lower()`. -/
def pyLower (s : String) : String := String.mk (s.toList.map pyCharLower)

/-- `lstIsPre p s` holds when `p` is a leading segment of `s`. -/
def lstIsPre : List Char → List Char → Bool
  | [], _ => true
  | _ :: _, [] => false
  | c :: cs, d :: ds => c == d && lstIsPre cs ds

/-- Strip a leading segment from a string, if present. -/
def stripPre (p s : String) : Option String :=
  if lstIsPre p.toList s.toList then some (String.mk (s.toList.drop p.toList.length)) else none

/-- Parse a nonempty all-digit character list to a natural number. -/
def digitsToNat : List Char → Nat → Option Nat
  | [], acc => some acc
  | c :: cs, acc =>
    if 48 ≤ c.toNat ∧ c.toNat ≤ 57 then digitsToNat cs (acc * 10 + (c.toNat - 48)) else none

/-- Parse a nonempty decimal digit string. -/
def parseDigitsNat (cs : List Char) : Option Nat :=
  match cs with
  | [] => none
  | _ => digitsToNat cs 0

/-- Decimal digit / lowercase-hex digit character, as `"%02x"` formats. -/
def hexDigitChar (n : Nat) : Char :=
  if n < 10 then Char.ofNat (48 + n) else Char.ofNat (87 + n)

/-- Decimal printing of a natural number (fuel-based, kernel-reducible). -/
def natToChars (fuel n : Nat) : List Char :=
  match fuel with
  | 0 => []
  | f + 1 =>
    if n < 10 then [hexDigitChar n] else natToChars f (n / 10) ++ [hexDigitChar (n % 10)]

/-- Decimal printing of a natural number, modelling Python's `str(n)`. -/
def natRepr (n : Nat) : String := String.mk (natToChars (n + 1) n)

/-- Decimal printing of an integer, modelling Python's `str(i)`. -/
def intRepr (i : Int) : String :=
  if i < 0 then "-" ++ natRepr i.natAbs else natRepr i.natAbs

/-- Model of Python's `repr` of a list of strings, as f-strings print it. -/
def pyListRepr (xs : List String) : String :=
  "[" ++ String.intercalate ", " (xs.map (fun s => "\x27" ++ s ++ "\x27")) ++ "]"

/-- First value bound to a key in an association list; models lookup in a
Python dict (the dicts built by this program have distinct keys). -/
def dictGet {α : Type} (k : String) : List (String × α) → Option α
  | [] => none
  | p :: ps => if p.1 == k then some p.2 else dictGet k ps

/-! ## Canonical JSON encoding

Model of `json.dumps(d, sort_keys=True)` with Python's default
separators `", "` and `": "`, restricted to the dictionary shapes this
program serializes: the license payload is a dict whose values are
strings or a nested dict of string lists (the `binds` dict).  String
escaping is not modelled (customer names, dates, MACs and hostnames in
this system contain no characters needing JSON escapes). -/

/-- A JSON value occurring in a license payload dict: a string, or the
nested `binds` object mapping binding categories to string lists. -/
inductive JVal : Type
  | jstr (s : String) : JVal
  | jobj (fields : List (String × List String)) : JVal
  deriving DecidableEq, Repr

/-- JSON string literal (no escaping needed for this program's data). -/
def jquote (s : String) : String := "\"" ++ s ++ "\""

/-- JSON array of strings with Python's default item separator. -/
def dumpsStrList (xs : List String) : String :=
  "[" ++ String.intercalate ", " (xs.map jquote) ++ "]"

/-- Sorting of dict items by key, as `sort_keys=True` orders the output.
`List.insertionSort` with a total order on distinct keys produces the
unique key-sorted permutation, which is all the model needs. -/
def pySortItems {α : Type} (l : List (String × α)) : List (String × α) :=
  List.insertionSort keyLe l

/-- Serialization of the nested `binds` dict with sorted keys. -/
def dumpsInnerObj (fs : List (String × List String)) : String :=
  "\x7b" ++ String.intercalate ", "
    ((pySortItems fs).map (fun p => jquote p.1 ++ ": " ++ dumpsStrList p.2)) ++ "\x7d"

/-- Serialization of a payload value. -/
def JVal.dumps : JVal → String
  | .jstr s => jquote s
  | .jobj fs => dumpsInnerObj fs

/-- Model of `json.dumps(d, sort_keys=True)` on a payload dict given as
an association list in insertion order. -/
def json_dumps_sorted (payload : List (String × JVal)) : String :=
  "\x7b" ++ String.intercalate ", "
    ((pySortItems payload).map (fun p => jquote p.1 ++ ": " ++ p.2.dumps)) ++ "\x7d"

/-! ## Dates and the clock

`datetime.fromisoformat("YYYY-MM-DD")` yields the naive datetime at
midnight (00:00:00) at the start of that calendar date; comparing it
with `datetime.utcnow()` compares instants on the UTC timeline.  The
model measures instants in seconds from `0001-01-01 00:00:00` (the
proleptic-Gregorian origin Python's `date.toordinal` uses); the clock is
an input in the same scale. -/

/-- Gregorian leap-year rule, as `calendar.isleap` / `datetime` use. -/
def isPyLeap (y : Nat) : Bool := y % 4 == 0 && (y % 100 != 0 || y % 400 == 0)

/-- Length of month `m` (1-based) of year `y`. -/
def daysInMonth (y m : Nat) : Nat :=
  if m == 2 then (if isPyLeap y then 29 else 28)
  else if m == 4 || m == 6 || m == 9 || m == 11 then 30
  else 31

/-- Days in all years before year `y` (proleptic Gregorian). -/
def daysBeforeYear (y : Nat) : Nat :=
  365 * (y - 1) + (y - 1) / 4 - (y - 1) / 100 + (y - 1) / 400

/-- Days in the months of year `y` before month `m`. -/
def daysBeforeMonth (y m : Nat) : Nat :=
  ((List.range (m - 1)).map (fun i => daysInMonth y (i + 1))).foldl (· + ·) 0

/-- Day count of `y-m-d` from `0001-01-01` (day 0), as `date.toordinal`
counts (shifted by one). -/
def dateToOrdinal (y m d : Nat) : Nat :=
  daysBeforeYear y + daysBeforeMonth y m + (d - 1)

/-- The instant of UTC midnight at the start of the calendar date
`(y, m, d)`, in seconds of the model's timeline. -/
def dateMidnightSec (ymd : Nat × Nat × Nat) : Nat :=
  dateToOrdinal ymd.1 ymd.2.1 ymd.2.2 * 86400

/-- Split a character list on a separator character, like `str.split`. -/
def splitOnChar (sep : Char) : List Char → List (List Char)
  | [] => [[]]
  | c :: cs =>
    let r := splitOnChar sep cs
    if c == sep then [] :: r
    else
      match r with
      | [] => [[c]]
      | g :: gs => (c :: g) :: gs

/-- Model of `datetime.fromisoformat` on the date-only strings this
system stores in the `expiry` field (`"YYYY-MM-DD"`): exact field widths
and in-range month/day are required, anything else raises `ValueError`. -/
def datetime_fromisoformat (s : String) : Except PyError (Nat × Nat × Nat) :=
  match splitOnChar '-' s.toList with
  | [ys, ms, ds] =>
    if ys.length == 4 && ms.length == 2 && ds.length == 2 then
      match parseDigitsNat ys, parseDigitsNat ms, parseDigitsNat ds with
      | some y, some m, some d =>
        if 1 ≤ y ∧ y ≤ 9999 ∧ 1 ≤ m ∧ m ≤ 12 ∧ 1 ≤ d ∧ d ≤ daysInMonth y m then
          .ok (y, m, d)
        else .error .valueError
      | _, _, _ => .error .valueError
    else .error .valueError
  | _ => .error .valueError

/-! ## Cryptographic library primitives (abstract executable models)

The code calls PyCryptodome (`Crypto.PublicKey.RSA`,
`Crypto.Signature.pkcs1_15`, `Crypto.Hash.SHA256`) and `base64`.  These
are modelled concretely: an RSA key pair is identified by a natural
number (its key material); PEM files, digests, raw signatures and base64
text are strings with recognisable structure, so that decoding failures
and verification mismatches raise exactly the exception classes the
real libraries raise (`ValueError`, or `TypeError` for `b64decode(None)`). -/

/-- An RSA key as `RSA.import_key` returns it; `n` identifies the key
pair the key material belongs to (a public key and the private key of
the same pair verify each other's signatures). -/
structure RsaKey : Type where
  n : Nat
  deriving DecidableEq, Repr

/-- PEM text of the public key of pair `k`, as `key.publickey().export_key()`. -/
def publicPem (k : RsaKey) : String := "PEM-PUBLIC-KEY-" ++ natRepr k.n

/-- PEM text of the private key of pair `k`, as `key.export_key()`. -/
def privatePem (k : RsaKey) : String := "PEM-PRIVATE-KEY-" ++ natRepr k.n

/-- Model of `RSA.import_key`: accepts either PEM form of a key pair,
raises `ValueError` on anything else. -/
def RSA.import_key (pem : String) : Except PyError RsaKey :=
  match stripPre "PEM-PUBLIC-KEY-" pem with
  | some rest =>
    match parseDigitsNat rest.toList with
    | some n => .ok ⟨n⟩
    | none => .error .valueError
  | none =>
    match stripPre "PEM-PRIVATE-KEY-" pem with
    | some rest =>
      match parseDigitsNat rest.toList with
      | some n => .ok ⟨n⟩
      | none => .error .valueError
    | none => .error .valueError

/-- Model of `SHA256.new(data)`: a deterministic digest of the input. -/
def SHA256.new (s : String) : String := "SHA256(" ++ s ++ ")"

/-- Model of `pkcs1_15.new(key).sign(h)`: the deterministic PKCS#1 v1.5
signature over digest `h` by the private key of pair `key`. -/
def pkcs1_15.sign (h : String) (key : RsaKey) : String :=
  "PKCS1v15-" ++ natRepr key.n ++ "-" ++ h

/-- Model of `pkcs1_15.new(key).verify(h, signature)`: succeeds exactly
when `signature` is the PKCS#1 v1.5 signature of `h` under the key pair
of `key`; raises `ValueError` otherwise (digest or key mismatch). -/
def pkcs1_15.verify (h signature : String) (key : RsaKey) : Except PyError Unit :=
  if signature == pkcs1_15.sign h key then .ok () else .error .valueError

/-- Model of `base64.b64encode(..).decode()`: a reversible text wrapping. -/
def b64encode (s : String) : String := "B64(" ++ s ++ ")"

/-- Model of `base64.b64decode` on a string: inverts `b64encode`, raises
`binascii.Error` (a `ValueError`) on text not of that form. -/
def b64decode (s : String) : Except PyError String :=
  if lstIsPre "B64(".toList s.toList && s.toList.getLast? == some ')' then
    .ok (String.mk ((s.toList.drop 4).dropLast))
  else .error .valueError

/-- Model of `base64.b64decode` applied to an `Optional[str]` value:
Python raises `TypeError` when the argument is `None`. -/
def b64decodeOpt : Option String → Except PyError String
  | none => .error .typeError
  | some s => b64decode s

/-! ## The persisted license record (parsed JSON document)

`License.from_license_file` consumes the dict produced by `json.load`;
the model types the document loosely, with `Option` marking keys that
may be absent (a missing required key raises `KeyError`). -/

/-- The parsed `binds` dict: binding categories mapped to string lists. -/
structure BindsDoc : Type where
  fields : List (String × List String)
  deriving DecidableEq, Repr

/-- The parsed `payload` dict of a license record. -/
structure PayloadDoc : Type where
  customer : Option String
  expiry : Option String
  binds : Option BindsDoc
  deriving DecidableEq, Repr

/-- The parsed license record: `{"payload": ..., "signature": ...}`. -/
structure RecordDoc : Type where
  payload : Option PayloadDoc
  signature : Option String
  deriving DecidableEq, Repr

/-! ## File system model -/

/-- A file system as a finite map from paths to file contents. -/
structure FileSystem : Type where
  files : List (String × String)
  deriving DecidableEq, Repr

/-- Model of `Path.exists()`. -/
def FileSystem.pathExists (fs : FileSystem) (p : String) : Bool :=
  (dictGet p fs.files).isSome

/-- Content of the file at `p`, when present. -/
def FileSystem.fileContent (fs : FileSystem) (p : String) : Option String :=
  dictGet p fs.files

/-- Model of `open(p, "wb").write(c)`: bind `p` to `c`, replacing any
previous binding. -/
def FileSystem.writeFile (fs : FileSystem) (p c : String) : FileSystem :=
  ⟨(p, c) :: fs.files.filter (fun q => q.1 != p)⟩

/-! ## Server application (issuer side)

Embedding of `src/server-application/models/license_model.py`,
`src/server-application/utils/crypto_utils.py` and the key-management
part of `src/server-application/services/license_service.py`. -/

namespace Server

/-- `LicenseBindings` dataclass (server side). -/
structure LicenseBindings : Type where
  mac : List String
  host : List String
  deriving DecidableEq, Repr

/-- `LicenseBindings.to_dict`: convert to a dict, excluding empty lists;
insertion order is `mac` then `host`, as the code adds them. -/
def LicenseBindings.to_dict (b : LicenseBindings) : List (String × List String) :=
  (if b.mac.isEmpty then [] else [("mac", b.mac)]) ++
  (if b.host.isEmpty then [] else [("host", b.host)])

/-- `LicenseBindings.from_dict`: absent categories default to `[]`. -/
def LicenseBindings.from_dict (data : BindsDoc) : LicenseBindings :=
  ⟨(dictGet "mac" data.fields).getD [], (dictGet "host" data.fields).getD []⟩

/-- `License` dataclass (server side). -/
structure License : Type where
  customer : String
  expiry : String
  bindings : LicenseBindings
  signature : Option String
  deriving DecidableEq, Repr

/-- `License.get_payload`: the payload dict for signing, in the code's
insertion order `customer`, `expiry`, `binds`. -/
def License.get_payload (L : License) : List (String × JVal) :=
  [("customer", .jstr L.customer), ("expiry", .jstr L.expiry),
   ("binds", .jobj L.bindings.to_dict)]

/-- `License.to_license_file`: the persisted record
`{"payload": get_payload(), "signature": signature}`. -/
def License.to_license_file (L : License) : RecordDoc :=
  ⟨some ⟨some L.customer, some L.expiry, some ⟨L.bindings.to_dict⟩⟩, L.signature⟩

/-- `License.from_license_file`: rebuild a `License` from a parsed
record; a missing `payload`, `customer` or `expiry` key raises
`KeyError`, while `binds` and `signature` use defaulting lookups. -/
def License.from_license_file (data : RecordDoc) : Except PyError License :=
  match data.payload with
  | none => .error .keyError
  | some payload =>
    match payload.customer with
    | none => .error .keyError
    | some customer =>
      match payload.expiry with
      | none => .error .keyError
      | some expiry =>
        .ok ⟨customer, expiry,
             LicenseBindings.from_dict (payload.binds.getD ⟨[]⟩), data.signature⟩

/-- `License.is_expired` (server side): `datetime.utcnow()` is strictly
after the expiry datetime `datetime.fromisoformat(expiry)`, which for a
date-only string is midnight at the start of that date.  The clock
`nowSec` is an input, in seconds of the model timeline.  A malformed
expiry string raises `ValueError`. -/
def License.is_expired (L : License) (nowSec : Nat) : Except PyError Bool :=
  match datetime_fromisoformat L.expiry with
  | .error e => .error e
  | .ok d => .ok (decide (nowSec > dateMidnightSec d))

namespace CryptoUtils

/-- `CryptoUtils.sign_data`: canonical JSON of the payload dict, SHA-256,
PKCS#1 v1.5 sign, base64-encode. -/
def sign_data (data : List (String × JVal)) (private_key : RsaKey) : String :=
  b64encode (pkcs1_15.sign (SHA256.new (json_dumps_sorted data)) private_key)

/-- The body of `CryptoUtils.verify_signature`'s `try` block. -/
def verify_signature_attempt (data : List (String × JVal)) (signature_b64 : Option String)
    (public_key : RsaKey) : Except PyError Bool :=
  match b64decodeOpt signature_b64 with
  | .error e => .error e
  | .ok signature =>
    match pkcs1_15.verify (SHA256.new (json_dumps_sorted data)) signature public_key with
    | .error e => .error e
    | .ok _ => .ok true

/-- `CryptoUtils.verify_signature`: the `try` body with
`except (ValueError, TypeError): return False`. -/
def verify_signature (data : List (String × JVal)) (signature_b64 : Option String)
    (public_key : RsaKey) : Except PyError Bool :=
  exceptValueType (verify_signature_attempt data signature_b64 public_key)

/-- `CryptoUtils.generate_rsa_keypair`: write the fresh key pair `key`
(the outcome of `RSA.generate`) to the two PEM files and return the
paths; the private key is written first, as in the code. -/
def generate_rsa_keypair (pub_path priv_path : String) (key : RsaKey) (fs : FileSystem) :
    FileSystem × String × String :=
  (((fs.writeFile priv_path (privatePem key)).writeFile pub_path (publicPem key)),
   pub_path, priv_path)

end CryptoUtils

/-- `LicenseService` (server side): holds the key directory. -/
structure LicenseService : Type where
  keys_dir : String
  deriving DecidableEq, Repr

/-- `LicenseService.public_key_path` = `keys_dir / "pub.pem"`. -/
def LicenseService.public_key_path (svc : LicenseService) : String :=
  svc.keys_dir ++ "/pub.pem"

/-- `LicenseService.private_key_path` = `keys_dir / "priv.pem"`. -/
def LicenseService.private_key_path (svc : LicenseService) : String :=
  svc.keys_dir ++ "/priv.pem"

/-- `LicenseService.keys_exist`: both PEM files exist. -/
def LicenseService.keys_exist (svc : LicenseService) (fs : FileSystem) : Bool :=
  fs.pathExists svc.public_key_path && fs.pathExists svc.private_key_path

/-- `LicenseService.generate_keys`: raise `FileExistsError` when the key
pair exists and `force` is not set, otherwise generate and write a fresh
key pair (`key` models the randomness of `RSA.generate`). -/
def LicenseService.generate_keys (svc : LicenseService) (force : Bool) (key : RsaKey)
    (fs : FileSystem) : Except PyError (FileSystem × String × String) :=
  if svc.keys_exist fs && !force then .error .fileExistsError
  else .ok (CryptoUtils.generate_rsa_keypair svc.public_key_path svc.private_key_path key fs)

end Server

/-! ## Client application (verifier side)

Embedding of `src/client-application/models/license_model.py`,
`src/client-application/utils/machine_utils.py`,
`src/client-application/services/license_service.py` and the exit-code
mapping of `src/client-application/controllers/app_controller.py`. -/

namespace Client

/-- `LicenseStatus` enum with its numeric codes. -/
inductive LicenseStatus : Type
  | VALID
  | FILE_NOT_FOUND
  | INVALID_SIGNATURE
  | EXPIRED
  | MAC_MISMATCH
  | HOSTNAME_MISMATCH
  | INVALID_FORMAT
  | UNKNOWN_ERROR
  deriving DecidableEq, Repr

/-- The numeric value of each `LicenseStatus` member. -/
def LicenseStatus.value : LicenseStatus → Nat
  | .VALID => 0
  | .FILE_NOT_FOUND => 2
  | .INVALID_SIGNATURE => 3
  | .EXPIRED => 4
  | .MAC_MISMATCH => 5
  | .HOSTNAME_MISMATCH => 6
  | .INVALID_FORMAT => 7
  | .UNKNOWN_ERROR => 99

/-- `LicenseBindings` dataclass (client side). -/
structure LicenseBindings : Type where
  mac : List String
  host : List String
  deriving DecidableEq, Repr

/-- `LicenseBindings.to_dict` (client side), identical to the server's. -/
def LicenseBindings.to_dict (b : LicenseBindings) : List (String × List String) :=
  (if b.mac.isEmpty then [] else [("mac", b.mac)]) ++
  (if b.host.isEmpty then [] else [("host", b.host)])

/-- `LicenseBindings.from_dict` (client side). -/
def LicenseBindings.from_dict (data : BindsDoc) : LicenseBindings :=
  ⟨(dictGet "mac" data.fields).getD [], (dictGet "host" data.fields).getD []⟩

/-- `LicenseBindings.has_bindings`: `bool(self.mac or self.host)`. -/
def LicenseBindings.has_bindings (b : LicenseBindings) : Bool :=
  !b.mac.isEmpty || !b.host.isEmpty

/-- `License` dataclass (client side). -/
structure License : Type where
  customer : String
  expiry : String
  bindings : LicenseBindings
  signature : Option String
  deriving DecidableEq, Repr

/-- `License.get_payload` (client side): the payload dict for
verification, in the code's insertion order. -/
def License.get_payload (L : License) : List (String × JVal) :=
  [("customer", .jstr L.customer), ("expiry", .jstr L.expiry),
   ("binds", .jobj L.bindings.to_dict)]

/-- `License.from_license_file` (client side): same record shape as the
server writes. -/
def License.from_license_file (data : RecordDoc) : Except PyError License :=
  match data.payload with
  | none => .error .keyError
  | some payload =>
    match payload.customer with
    | none => .error .keyError
    | some customer =>
      match payload.expiry with
      | none => .error .keyError
      | some expiry =>
        .ok ⟨customer, expiry,
             LicenseBindings.from_dict (payload.binds.getD ⟨[]⟩), data.signature⟩

/-- `License.get_expiry_date`: `datetime.fromisoformat(self.expiry)`. -/
def License.get_expiry_date (L : License) : Except PyError (Nat × Nat × Nat) :=
  datetime_fromisoformat L.expiry

/-- `License.is_expired`: `datetime.utcnow() > self.get_expiry_date()`;
the clock `nowSec` is an input in seconds of the model timeline. -/
def License.is_expired (L : License) (nowSec : Nat) : Except PyError Bool :=
  match L.get_expiry_date with
  | .error e => .error e
  | .ok d => .ok (decide (nowSec > dateMidnightSec d))

/-- `License.days_until_expiry`: `(expiry - utcnow()).days`, which
floor-divides the signed difference by a day (negative if expired). -/
def License.days_until_expiry (L : License) (nowSec : Nat) : Except PyError Int :=
  match L.get_expiry_date with
  | .error e => .error e
  | .ok d => .ok (Int.fdiv ((dateMidnightSec d : Int) - (nowSec : Int)) 86400)

/-- The machine-identity facts the resolver reads from the host:
`uuid.getnode()` and `socket.gethostname()`. -/
structure MachineEnv : Type where
  node : Nat
  rawHostname : String
  deriving DecidableEq, Repr

namespace MachineUtils

/-- `MachineUtils.get_primary_mac`: format `uuid.getnode()` as six
lowercase hex byte pairs joined by `":"` (offsets 40 down to 0), then
`.lower()`. -/
def get_primary_mac (env : MachineEnv) : String :=
  pyLower (String.intercalate ":"
    ([40, 32, 24, 16, 8, 0].map (fun off =>
      String.mk [hexDigitChar ((env.node >>> off) % 256 / 16), hexDigitChar ((env.node >>> off) % 256 % 16)])))

/-- `MachineUtils.get_hostname`: `socket.gethostname().lower()`. -/
def get_hostname (env : MachineEnv) : String := pyLower env.rawHostname

end MachineUtils

/-- `LicenseService` (client side) together with the outcome of its file
reads: `licenseExists` is whether `license_path` exists,
`licenseDoc` the outcome of `json.load` on it, and `pubkeyFile` the
outcome of reading `pubkey_path` (`.error` = the raised `OSError`). -/
structure LicenseService : Type where
  license_path : String
  licenseExists : Bool
  licenseDoc : Except PyError RecordDoc
  embedded_pubkey : Option String
  pubkeyFile : Except PyError String
  deriving DecidableEq, Repr

/-- `LicenseService.get_public_key`: the embedded key when truthy,
otherwise the `pub.pem` file read (whose failure raises). -/
def LicenseService.get_public_key (svc : LicenseService) : Except PyError String :=
  match svc.embedded_pubkey with
  | some k => if !k.isEmpty then .ok k else svc.pubkeyFile
  | none => svc.pubkeyFile

/-- `LicenseService.load_license`: `FileNotFoundError` when the license
file is missing, else `json.load` then `License.from_license_file`. -/
def LicenseService.load_license (svc : LicenseService) : Except PyError License :=
  if !svc.licenseExists then
    .error (.fileNotFoundError ("License file not found: " ++ svc.license_path))
  else
    match svc.licenseDoc with
    | .error e => .error e
    | .ok data => License.from_license_file data

/-- The body of the client `verify_signature`'s `try` block: resolve the
public key, import it, canonicalize the payload, hash, base64-decode the
stored signature and verify. -/
def LicenseService.verify_signature_attempt (svc : LicenseService) (license_obj : License) :
    Except PyError Bool :=
  match svc.get_public_key with
  | .error e => .error e
  | .ok pubkey_pem =>
    match RSA.import_key pubkey_pem with
    | .error e => .error e
    | .ok public_key =>
      match b64decodeOpt license_obj.signature with
      | .error e => .error e
      | .ok signature =>
        match pkcs1_15.verify (SHA256.new (json_dumps_sorted license_obj.get_payload))
            signature public_key with
        | .error e => .error e
        | .ok _ => .ok true

/-- `LicenseService.verify_signature`: the `try` body with
`except (ValueError, TypeError): return False`; any other exception
(e.g. a missing public-key file) propagates. -/
def LicenseService.verify_signature (svc : LicenseService) (license_obj : License) :
    Except PyError Bool :=
  exceptValueType (svc.verify_signature_attempt license_obj)

/-- `LicenseService.check_mac_binding`: lower-case the allowed MACs; an
empty list means no MAC binding; otherwise membership of the current
machine's MAC. -/
def LicenseService.check_mac_binding (license_obj : License) (env : MachineEnv) : Bool :=
  let allowed_macs := license_obj.bindings.mac.map pyLower
  if allowed_macs.isEmpty then true
  else allowed_macs.contains (MachineUtils.get_primary_mac env)

/-- `LicenseService.check_hostname_binding`: same shape for hostnames. -/
def LicenseService.check_hostname_binding (license_obj : License) (env : MachineEnv) : Bool :=
  let allowed_hosts := license_obj.bindings.host.map pyLower
  if allowed_hosts.isEmpty then true
  else allowed_hosts.contains (MachineUtils.get_hostname env)

/-- The tail of `validate_license` once every check has passed: compute
the days left and return the `VALID` triple. -/
def LicenseService.validate_license_valid_tail (license_obj : License) (nowSec : Nat) :
    Except PyError (LicenseStatus × String × Option License) :=
  match license_obj.days_until_expiry nowSec with
  | .error e => .error e
  | .ok days_left =>
    .ok (.VALID,
         "License valid for " ++ license_obj.customer ++ ". Expires in " ++
           intRepr days_left ++ " days.",
         some license_obj)

/-- `LicenseService.validate_license`: the full fixed-order pipeline.
Only the load step is guarded by `try/except`; exceptions thrown past it
(by `verify_signature` or the expiry parsing) propagate to the caller. -/
def LicenseService.validate_license (svc : LicenseService) (env : MachineEnv) (nowSec : Nat)
    (require_bindings : Bool) : Except PyError (LicenseStatus × String × Option License) :=
  match svc.load_license with
  | .error (.fileNotFoundError msg) => .ok (.FILE_NOT_FOUND, msg, none)
  | .error .jsonDecodeError => .ok (.INVALID_FORMAT, "Invalid license file format", none)
  | .error e => .ok (.UNKNOWN_ERROR, "Error loading license: " ++ e.pyStr, none)
  | .ok license_obj =>
    match svc.verify_signature license_obj with
    | .error e => .error e
    | .ok sigOk =>
      if !sigOk then .ok (.INVALID_SIGNATURE, "Invalid license signature", none)
      else
        match license_obj.is_expired nowSec with
        | .error e => .error e
        | .ok expired =>
          if expired then
            .ok (.EXPIRED, "License expired on " ++ license_obj.expiry, some license_obj)
          else
            if require_bindings && license_obj.bindings.has_bindings then
              if !license_obj.bindings.mac.isEmpty &&
                  !(LicenseService.check_mac_binding license_obj env) then
                .ok (.MAC_MISMATCH,
                     "MAC mismatch. Current: " ++ MachineUtils.get_primary_mac env ++
                       ", Allowed: " ++ pyListRepr license_obj.bindings.mac,
                     some license_obj)
              else if !license_obj.bindings.host.isEmpty &&
                  !(LicenseService.check_hostname_binding license_obj env) then
                .ok (.HOSTNAME_MISMATCH,
                     "Hostname mismatch. Current: " ++ MachineUtils.get_hostname env ++
                       ", Allowed: " ++ pyListRepr license_obj.bindings.host,
                     some license_obj)
              else LicenseService.validate_license_valid_tail license_obj nowSec
            else LicenseService.validate_license_valid_tail license_obj nowSec

/-- `AppController`'s exit-code behaviour: `_validate_license` calls
`sys.exit(status.value)` on any non-`VALID` status; on `VALID` the run
continues and `_execute_business_logic` yields the process exit code
(`0` on success, `1` on a business-logic error). -/
def AppController.process_exit_code (validation : LicenseStatus × String × Option License)
    (businessOk : Bool) : Nat :=
  if validation.1 = .VALID then (if businessOk then 0 else 1) else validation.1.value

end Client

/-! ## Helper lemmas -/

theorem strCharsLe_total (xs ys : List Char) :
    strCharsLe xs ys = true ∨ strCharsLe ys xs = true := by
  induction xs generalizing ys with
  | nil => left; rfl
  | cons c cs ih =>
    cases ys with
    | nil => right; rfl
    | cons d ds =>
      by_cases h1 : c.toNat < d.toNat
      · left; simp [strCharsLe, h1]
      · by_cases h2 : d.toNat < c.toNat
        · right; simp [strCharsLe, h2]
        · rcases ih ds with h | h
          · left; simp [strCharsLe, h1, h2, h]
          · right; simp [strCharsLe, h1, h2, h]

theorem strCharsLe_trans {xs ys zs : List Char} (h1 : strCharsLe xs ys = true)
    (h2 : strCharsLe ys zs = true) : strCharsLe xs zs = true := by
  induction xs generalizing ys zs with
  | nil => rfl
  | cons c cs ih =>
    cases ys with
    | nil => simp [strCharsLe] at h1
    | cons d ds =>
      cases zs with
      | nil => simp [strCharsLe] at h2
      | cons e es =>
        rw [strCharsLe] at h1 h2 ⊢
        by_cases hcd : c.toNat < d.toNat
        · by_cases hde : d.toNat < e.toNat
          · rw [if_pos (show c.toNat < e.toNat by omega)]
          · rw [if_neg hde] at h2
            by_cases hed : e.toNat < d.toNat
            · rw [if_pos hed] at h2; exact absurd h2 (by simp)
            · rw [if_pos (show c.toNat < e.toNat by omega)]
        · rw [if_neg hcd] at h1
          by_cases hdc : d.toNat < c.toNat
          · rw [if_pos hdc] at h1; exact absurd h1 (by simp)
          · rw [if_neg hdc] at h1
            by_cases hde : d.toNat < e.toNat
            · rw [if_pos (show c.toNat < e.toNat by omega)]
            · rw [if_neg hde] at h2
              by_cases hed : e.toNat < d.toNat
              · rw [if_pos hed] at h2; exact absurd h2 (by simp)
              · rw [if_neg hed] at h2
                rw [if_neg (show ¬ c.toNat < e.toNat by omega),
                    if_neg (show ¬ e.toNat < c.toNat by omega)]
                exact ih h1 h2

theorem char_toNat_inj {c d : Char} (h : c.toNat = d.toNat) : c = d := by
  apply Char.ext
  apply UInt32.ext
  simpa [Char.toNat, UInt32.toNat] using h

theorem strCharsLe_antisymm {xs ys : List Char} (h1 : strCharsLe xs ys = true)
    (h2 : strCharsLe ys xs = true) : xs = ys := by
  induction xs generalizing ys with
  | nil =>
    cases ys with
    | nil => rfl
    | cons d ds => simp [strCharsLe] at h2
  | cons c cs ih =>
    cases ys with
    | nil => simp [strCharsLe] at h1
    | cons d ds =>
      rw [strCharsLe] at h1 h2
      by_cases hcd : c.toNat < d.toNat
      · rw [if_neg (show ¬ d.toNat < c.toNat by omega), if_pos hcd] at h2
        exact absurd h2 (by simp)
      · rw [if_neg hcd] at h1
        by_cases hdc : d.toNat < c.toNat
        · rw [if_pos hdc] at h1; exact absurd h1 (by simp)
        · rw [if_neg hdc] at h1
          rw [if_neg hdc, if_neg hcd] at h2
          have : c = d := char_toNat_inj (by omega)
          rw [this, ih h1 h2]

theorem strLeb_total (a b : String) : strLeb a b = true ∨ strLeb b a = true :=
  strCharsLe_total a.toList b.toList

theorem strLeb_trans {a b c : String} (h1 : strLeb a b = true) (h2 : strLeb b c = true) :
    strLeb a c = true :=
  strCharsLe_trans h1 h2

theorem strLeb_antisymm {a b : String} (h1 : strLeb a b = true) (h2 : strLeb b a = true) :
    a = b := by
  cases a with
  | mk as =>
    cases b with
    | mk bs =>
      have : as = bs := strCharsLe_antisymm h1 h2
      rw [this]

instance {α : Type} : IsTotal (String × α) keyLe :=
  ⟨fun a b => strLeb_total a.1 b.1⟩

instance {α : Type} : IsTrans (String × α) keyLe :=
  ⟨fun _ _ _ h1 h2 => strLeb_trans h1 h2⟩

/-- Two key-sorted association lists that are permutations of each other
and have no duplicate keys are equal. -/
theorem sorted_keys_perm_eq {α : Type} :
    ∀ (l1 l2 : List (String × α)), l1.Perm l2 → l1.Sorted keyLe → l2.Sorted keyLe →
      (l1.map Prod.fst).Nodup → l1 = l2 := by
  intro l1
  induction l1 with
  | nil =>
    intro l2 hp _ _ _
    exact hp.nil_eq
  | cons a t1 ih =>
    intro l2 hp hs1 hs2 hnd
    cases l2 with
    | nil => exact absurd hp.symm.nil_eq (by simp)
    | cons b t2 =>
      have hab : a = b := by
        have ha2 : a ∈ b :: t2 := hp.mem_iff.mp (List.mem_cons_self a t1)
        rcases List.mem_cons.mp ha2 with h | hat2
        · exact h
        · have hb1 : b ∈ a :: t1 := hp.symm.mem_iff.mp (List.mem_cons_self b t2)
          rcases List.mem_cons.mp hb1 with h | hbt1
          · exact h.symm
          · have h1 : keyLe a b := (List.sorted_cons.mp hs1).1 b hbt1
            have h2 : keyLe b a := (List.sorted_cons.mp hs2).1 a hat2
            have hkey : a.1 = b.1 := strLeb_antisymm h1 h2
            have : a.1 ∉ t1.map Prod.fst := (List.nodup_cons.mp (by simpa using hnd)).1
            exact absurd (hkey ▸ List.mem_map_of_mem Prod.fst hbt1) this
      subst hab
      have hpt : t1.Perm t2 := hp.cons_inv
      have := ih t2 hpt (List.sorted_cons.mp hs1).2 (List.sorted_cons.mp hs2).2
        (List.nodup_cons.mp (by simpa using hnd)).2
      rw [this]

/-- `sort_keys=True` is insertion-order independent: two payload dicts
with the same items in any orders (and distinct keys) sort identically. -/
theorem pySortItems_perm_eq {α : Type} (l1 l2 : List (String × α)) (hp : l1.Perm l2)
    (hnd : (l1.map Prod.fst).Nodup) : pySortItems l1 = pySortItems l2 := by
  apply sorted_keys_perm_eq
  · exact (List.perm_insertionSort keyLe l1).trans (hp.trans (List.perm_insertionSort keyLe l2).symm)
  · exact List.sorted_insertionSort keyLe l1
  · exact List.sorted_insertionSort keyLe l2
  · have : (pySortItems l1).Perm l1 := List.perm_insertionSort keyLe l1
    exact ((this.map Prod.fst).nodup_iff).mpr hnd

theorem char_toNat_ofNat_valid (n : Nat) (h : n < 55296) : (Char.ofNat n).toNat = n := by
  have hv : n.isValidChar := Or.inl h
  simp [Char.ofNat, dif_pos hv, Char.ofNatAux, Char.toNat, UInt32.ofNat', UInt32.toNat]

theorem pyCharLower_idem (c : Char) : pyCharLower (pyCharLower c) = pyCharLower c := by
  unfold pyCharLower
  by_cases h : 65 ≤ c.toNat ∧ c.toNat ≤ 90
  · rw [if_pos h]
    have ht : (Char.ofNat (c.toNat + 32)).toNat = c.toNat + 32 :=
      char_toNat_ofNat_valid _ (by omega)
    rw [if_neg (by rw [ht]; omega)]
  · rw [if_neg h, if_neg h]

theorem pyLower_idem (s : String) : pyLower (pyLower s) = pyLower s := by
  cases s with
  | mk cs =>
    show String.mk ((cs.map pyCharLower).map pyCharLower) = String.mk (cs.map pyCharLower)
    rw [List.map_map]
    congr 1
    exact List.map_congr_left (fun c _ => pyCharLower_idem c)

theorem lstIsPre_append (p r : List Char) : lstIsPre p (p ++ r) = true := by
  induction p with
  | nil => rfl
  | cons c cs ih => simp [lstIsPre, ih]

/-- Base64 round-trip: decoding an encoded string restores it. -/
theorem b64_roundtrip (s : String) : b64decode (b64encode s) = .ok s := by
  cases s with
  | mk cs =>
    have h1 : b64encode ⟨cs⟩ = ⟨(['B','6','4','('] ++ cs) ++ [')']⟩ := by
      show ("B64(" ++ String.mk cs ++ ")") = _
      rfl
    rw [h1]
    have htl : (String.mk ((['B','6','4','('] ++ cs) ++ [')'])).toList
        = (['B','6','4','('] ++ cs) ++ [')'] := rfl
    rw [b64decode]
    rw [htl]
    have hpre : lstIsPre "B64(".toList ((['B','6','4','('] ++ cs) ++ [')']) = true := by
      have : (['B','6','4','('] ++ cs) ++ [')'] = ['B','6','4','('] ++ (cs ++ [')']) := by
        simp
      rw [this]
      exact lstIsPre_append _ _
    have hlast : ((['B','6','4','('] ++ cs) ++ [')']).getLast? = some ')' := by
      rw [List.getLast?_concat]
    rw [hpre, hlast]
    simp [List.drop_append_of_le_length]

theorem contains_map_pyLower_iff (xs : List String) (m : String) :
    (xs.map pyLower).contains m = true ↔ ∃ a ∈ xs, pyLower a = m := by
  simp [List.contains_iff_exists_mem_beq, beq_iff_eq]

theorem server_bindings_roundtrip (b : Server.LicenseBindings) :
    Server.LicenseBindings.from_dict ⟨b.to_dict⟩ = b := by
  cases b with
  | mk mac host =>
    cases mac <;> cases host <;>
      simp [Server.LicenseBindings.to_dict, Server.LicenseBindings.from_dict, dictGet]

theorem client_bindings_roundtrip (mac host : List String) :
    Client.LicenseBindings.from_dict ⟨Server.LicenseBindings.to_dict ⟨mac, host⟩⟩ =
      Client.LicenseBindings.mk mac host := by
  cases mac <;> cases host <;>
    simp [Server.LicenseBindings.to_dict, Client.LicenseBindings.from_dict, dictGet]

/-- The machine's reported MAC is already case-folded. -/
theorem get_primary_mac_lower (env : Client.MachineEnv) :
    pyLower (Client.MachineUtils.get_primary_mac env) = Client.MachineUtils.get_primary_mac env := by
  rw [Client.MachineUtils.get_primary_mac]
  exact pyLower_idem _

/-- The machine's reported hostname is already case-folded. -/
theorem get_hostname_lower (env : Client.MachineEnv) :
    pyLower (Client.MachineUtils.get_hostname env) = Client.MachineUtils.get_hostname env := by
  rw [Client.MachineUtils.get_hostname]
  exact pyLower_idem _

/-- The two key file paths of one service are distinct. -/
theorem pub_path_ne_priv_path (svc : Server.LicenseService) :
    svc.public_key_path ≠ svc.private_key_path := by
  intro h
  have := congrArg String.length h
  simp [Server.LicenseService.public_key_path, Server.LicenseService.private_key_path,
    String.length_append] at this
  exact absurd this (by decide)

/-- C5: each binding category (mac, host) is satisfied iff its allowed
list is empty or the machine's value, compared case-insensitively, is a
member of the allowed list; a license with both lists empty passes the
binding stage on every machine (no MAC/HOSTNAME mismatch is possible);
and a license bound to `AA:BB:CC:DD:EE:FF` matches a local MAC reported
as `aa:bb:cc:dd:ee:ff`. -/
theorem C5_binding_semantics :
    (∀ (L : Client.License) (env : Client.MachineEnv),
       Client.LicenseService.check_mac_binding L env = true ↔
         (L.bindings.mac = [] ∨ ∃ a ∈ L.bindings.mac,
            pyLower a = pyLower (Client.MachineUtils.get_primary_mac env))) ∧
    (∀ (L : Client.License) (env : Client.MachineEnv),
       Client.LicenseService.check_hostname_binding L env = true ↔
         (L.bindings.host = [] ∨ ∃ a ∈ L.bindings.host,
            pyLower a = pyLower (Client.MachineUtils.get_hostname env))) ∧
    (∀ (svc : Client.LicenseService) (env : Client.MachineEnv) (nowSec : Nat)
       (rb : Bool) (L : Client.License) (st : Client.LicenseStatus) (msg : String)
       (lo : Option Client.License),
       svc.load_license = .ok L → L.bindings.mac = [] → L.bindings.host = [] →
       svc.validate_license env nowSec rb = .ok (st, msg, lo) →
       st ≠ Client.LicenseStatus.MAC_MISMATCH ∧ st ≠ Client.LicenseStatus.HOSTNAME_MISMATCH) ∧
    (∀ (L : Client.License) (env : Client.MachineEnv),
       L.bindings.mac = ["AA:BB:CC:DD:EE:FF"] →
       Client.MachineUtils.get_primary_mac env = "aa:bb:cc:dd:ee:ff" →
       Client.LicenseService.check_mac_binding L env = true) := by
  refine ⟨?_, ?_, ?_, ?_⟩
  · intro L env
    simp only [Client.LicenseService.check_mac_binding]
    by_cases hm : L.bindings.mac = []
    · simp [hm]
    · rw [if_neg (by simp [List.isEmpty_iff, hm])]
      rw [contains_map_pyLower_iff, get_primary_mac_lower]
      simp [hm]
  · intro L env
    simp only [Client.LicenseService.check_hostname_binding]
    by_cases hm : L.bindings.host = []
    · simp [hm]
    · rw [if_neg (by simp [List.isEmpty_iff, hm])]
      rw [contains_map_pyLower_iff, get_hostname_lower]
      simp [hm]
  · intro svc env nowSec rb L st msg lo hload hmac hhost hv
    have hnb : L.bindings.has_bindings = false := by
      simp [Client.LicenseBindings.has_bindings, hmac, hhost]
    simp only [Client.LicenseService.validate_license, hload] at hv
    cases hver : svc.verify_signature L with
    | error e => simp [hver] at hv
    | ok sigOk =>
      simp only [hver] at hv
      cases sigOk with
      | false =>
        simp at hv
        obtain ⟨h1, _, _⟩ := hv
        subst h1
        exact ⟨by decide, by decide⟩
      | true =>
        simp only [Bool.not_true, Bool.false_eq_true, if_false] at hv
        cases hexp : Client.License.is_expired L nowSec with
        | error e => simp [hexp] at hv
        | ok expired =>
          simp only [hexp] at hv
          cases expired with
          | true =>
            simp at hv
            obtain ⟨h1, _, _⟩ := hv
            subst h1
            exact ⟨by decide, by decide⟩
          | false =>
            simp only [Bool.false_eq_true, if_false, hnb, Bool.and_false,
              Client.LicenseService.validate_license_valid_tail] at hv
            cases hd : Client.License.days_until_expiry L nowSec with
            | error e => simp [hd] at hv
            | ok days =>
              simp only [hd] at hv
              simp at hv
              obtain ⟨h1, _, _⟩ := hv
              subst h1
              exact ⟨by decide, by decide⟩
  · intro L env hmac hcur
    simp only [Client.LicenseService.check_mac_binding, hmac, hcur]
    decide

/-- C5 witness: a concrete license bound to `AA:BB:CC:DD:EE:FF` is
matched on a machine whose node id renders as `aa:bb:cc:dd:ee:ff`. -/
theorem C5_binding_semantics_witness :
    Client.LicenseService.check_mac_binding
      ⟨"Acme", "2099-01-01", ⟨["AA:BB:CC:DD:EE:FF"], []⟩, none⟩
      ⟨187723572702975, "host"⟩ = true :=
  C5_binding_semantics.2.2.2
    ⟨"Acme", "2099-01-01", ⟨["AA:BB:CC:DD:EE:FF"], []⟩, none⟩
    ⟨187723572702975, "host"⟩ (by decide) (by decide)

/-- C7: round-trip — for any License with arbitrary customer, expiry and
bindings, signing its canonical payload with a private key and verifying
that signature against the same canonical payload with the public key of
the same pair returns true. -/
theorem C7_sign_verify_roundtrip (customer expiry : String) (mac host : List String)
    (sig0 : Option String) (k : RsaKey) :
    Server.CryptoUtils.verify_signature
      (Server.License.get_payload ⟨customer, expiry, ⟨mac, host⟩, sig0⟩)
      (some (Server.CryptoUtils.sign_data
        (Server.License.get_payload ⟨customer, expiry, ⟨mac, host⟩, sig0⟩) k))
      k = .ok true := by
  simp [Server.CryptoUtils.verify_signature, Server.CryptoUtils.verify_signature_attempt,
    Server.CryptoUtils.sign_data, b64decodeOpt, b64_roundtrip, pkcs1_15.verify, exceptValueType]

/-- C9: when license validation does not succeed the process exit code
equals the numeric value of the terminal status, which is nonzero
(FILE_NOT_FOUND=2, INVALID_SIGNATURE=3, EXPIRED=4, MAC_MISMATCH=5,
HOSTNAME_MISMATCH=6, INVALID_FORMAT=7, UNKNOWN_ERROR=99); a VALID status
(value 0) lets the run continue, exiting 0 when the gated business logic
succeeds. -/
theorem C9_exit_code_mapping :
    (∀ (v : Client.LicenseStatus × String × Option Client.License) (businessOk : Bool),
       v.1 ≠ Client.LicenseStatus.VALID →
         Client.AppController.process_exit_code v businessOk = v.1.value ∧ v.1.value ≠ 0) ∧
    (∀ (v : Client.LicenseStatus × String × Option Client.License),
       v.1 = Client.LicenseStatus.VALID → Client.AppController.process_exit_code v true = 0) ∧
    Client.LicenseStatus.value .FILE_NOT_FOUND = 2 ∧
    Client.LicenseStatus.value .INVALID_SIGNATURE = 3 ∧
    Client.LicenseStatus.value .EXPIRED = 4 ∧
    Client.LicenseStatus.value .MAC_MISMATCH = 5 ∧
    Client.LicenseStatus.value .HOSTNAME_MISMATCH = 6 ∧
    Client.LicenseStatus.value .INVALID_FORMAT = 7 ∧
    Client.LicenseStatus.value .UNKNOWN_ERROR = 99 ∧
    Client.LicenseStatus.value .VALID = 0 := by
  refine ⟨?_, ?_, rfl, rfl, rfl, rfl, rfl, rfl, rfl, rfl⟩
  · intro v bok h
    refine ⟨by simp [Client.AppController.process_exit_code, h], ?_⟩
    cases hv : v.1 <;> first | exact absurd hv h | simp [Client.LicenseStatus.value]
  · intro v h
    simp [Client.AppController.process_exit_code, h]

/-- C9 witness: an EXPIRED validation outcome exits with code 4. -/
theorem C9_exit_code_mapping_witness :
    Client.AppController.process_exit_code (Client.LicenseStatus.EXPIRED, "m", none) true = 4 :=
  (C9_exit_code_mapping.1 (Client.LicenseStatus.EXPIRED, "m", none) true (by decide)).1

/-- C10: reconstructing a License from its persisted record
(`from_license_file` after `to_license_file`) restores customer, expiry,
bindings and signature exactly — on the issuer side and on the verifier
side — with omitted empty binding lists restored as empty lists, so the
canonical payload is unchanged by serialization. -/
theorem C10_record_roundtrip :
    (∀ L : Server.License,
       Server.License.from_license_file L.to_license_file = .ok L) ∧
    (∀ L : Server.License,
       Client.License.from_license_file L.to_license_file =
         .ok ⟨L.customer, L.expiry, ⟨L.bindings.mac, L.bindings.host⟩, L.signature⟩) ∧
    (∀ L : Server.License,
       json_dumps_sorted (Client.License.get_payload
           ⟨L.customer, L.expiry, ⟨L.bindings.mac, L.bindings.host⟩, L.signature⟩) =
         json_dumps_sorted (Server.License.get_payload L)) := by
  refine ⟨?_, ?_, ?_⟩
  · intro L
    cases L with
    | mk c e b sig =>
      simp [Server.License.to_license_file, Server.License.from_license_file,
        Server.License.get_payload, server_bindings_roundtrip]
  · intro L
    cases L with
    | mk c e b sig =>
      cases b with
      | mk mac host =>
        simp [Server.License.to_license_file, Client.License.from_license_file,
          Server.License.get_payload, client_bindings_roundtrip]
  · intro L
    rfl

theorem b64decode_error_shape {s : String} {e : PyError} (h : b64decode s = .error e) :
    e = .valueError := by
  rw [b64decode] at h
  split at h
  · cases h
  · cases h; rfl

theorem pkcs1_verify_error_shape {h s : String} {k : RsaKey} {e : PyError}
    (hv : pkcs1_15.verify h s k = .error e) : e = .valueError := by
  rw [pkcs1_15.verify] at hv
  split at hv
  · cases hv
  · cases hv; rfl

theorem import_key_error_shape {pem : String} {e : PyError}
    (h : RSA.import_key pem = .error e) : e = .valueError := by
  rw [RSA.import_key] at h
  split at h
  · split at h
    · cases h
    · cases h; rfl
  · split at h
    · split at h
      · cases h
      · cases h; rfl
    · cases h; rfl

theorem server_attempt_error_class {data : List (String × JVal)} {sigOpt : Option String}
    {k : RsaKey} {e : PyError}
    (h : Server.CryptoUtils.verify_signature_attempt data sigOpt k = .error e) :
    (e.isValueErrorClass || e.isTypeErrorClass) = true := by
  rw [Server.CryptoUtils.verify_signature_attempt] at h
  cases sigOpt with
  | none =>
    simp only [b64decodeOpt] at h
    cases h; rfl
  | some s =>
    cases hb : b64decode s with
    | error eb =>
      simp only [b64decodeOpt, hb] at h
      cases h
      rw [b64decode_error_shape hb]
      rfl
    | ok raw =>
      simp only [b64decodeOpt, hb] at h
      cases hv : pkcs1_15.verify (SHA256.new (json_dumps_sorted data)) raw k with
      | error ev =>
        simp only [hv] at h
        cases h
        rw [pkcs1_verify_error_shape hv]
        rfl
      | ok u => simp [hv] at h

/-- Server verify never raises. -/
theorem server_verify_total (data : List (String × JVal)) (sigOpt : Option String) (k : RsaKey) :
    ∃ b : Bool, Server.CryptoUtils.verify_signature data sigOpt k = .ok b := by
  rw [Server.CryptoUtils.verify_signature]
  cases hA : Server.CryptoUtils.verify_signature_attempt data sigOpt k with
  | ok b => exact ⟨b, rfl⟩
  | error e =>
    refine ⟨false, ?_⟩
    simp [exceptValueType, server_attempt_error_class hA]

theorem client_attempt_error_class {svc : Client.LicenseService} {L : Client.License}
    {pem : String} {e : PyError} (hpub : svc.get_public_key = .ok pem)
    (h : svc.verify_signature_attempt L = .error e) :
    (e.isValueErrorClass || e.isTypeErrorClass) = true := by
  rw [Client.LicenseService.verify_signature_attempt] at h
  rw [hpub] at h
  cases hk : RSA.import_key pem with
  | error ek =>
    simp only [hk] at h
    cases h
    rw [import_key_error_shape hk]
    rfl
  | ok key =>
    simp only [hk] at h
    cases hsig : L.signature with
    | none =>
      simp only [hsig, b64decodeOpt] at h
      cases h; rfl
    | some s =>
      cases hb : b64decode s with
      | error eb =>
        simp only [hsig, b64decodeOpt, hb] at h
        cases h
        rw [b64decode_error_shape hb]
        rfl
      | ok raw =>
        simp only [hsig, b64decodeOpt, hb] at h
        cases hv : pkcs1_15.verify (SHA256.new (json_dumps_sorted L.get_payload)) raw key with
        | error ev =>
          simp only [hv] at h
          cases h
          rw [pkcs1_verify_error_shape hv]
          rfl
        | ok u => simp [hv] at h

/-- Client verify never raises once the key bytes were obtained. -/
theorem client_verify_total (svc : Client.LicenseService) (L : Client.License) (pem : String)
    (hpub : svc.get_public_key = .ok pem) :
    ∃ b : Bool, svc.verify_signature L = .ok b := by
  rw [Client.LicenseService.verify_signature]
  cases hA : svc.verify_signature_attempt L with
  | ok b => exact ⟨b, rfl⟩
  | error e =>
    refine ⟨false, ?_⟩
    simp [exceptValueType, client_attempt_error_class hpub hA]

/-- C2: signature verification returns a boolean and never raises for a
malformed signature encoding (including a missing/None signature), a
key/algorithm mismatch, or a digest mismatch; in each of those cases it
returns false.  Holds for the issuer-side `CryptoUtils.verify_signature`
and for the client-side `LicenseService.verify_signature` whenever the
public-key bytes were obtained. -/
theorem C2_verify_returns_false_never_raises :
    (∀ (data : List (String × JVal)) (k : RsaKey),
       Server.CryptoUtils.verify_signature data none k = .ok false) ∧
    (∀ (data : List (String × JVal)) (s : String) (k : RsaKey),
       b64decode s = .error .valueError →
       Server.CryptoUtils.verify_signature data (some s) k = .ok false) ∧
    (∀ (data : List (String × JVal)) (s raw : String) (k : RsaKey),
       b64decode s = .ok raw →
       raw ≠ pkcs1_15.sign (SHA256.new (json_dumps_sorted data)) k →
       Server.CryptoUtils.verify_signature data (some s) k = .ok false) ∧
    (∀ (data : List (String × JVal)) (sigOpt : Option String) (k : RsaKey),
       ∃ b : Bool, Server.CryptoUtils.verify_signature data sigOpt k = .ok b) ∧
    (∀ (svc : Client.LicenseService) (L : Client.License) (pem : String),
       svc.get_public_key = .ok pem →
       ∃ b : Bool, svc.verify_signature L = .ok b) ∧
    (∀ (svc : Client.LicenseService) (L : Client.License) (pem : String) (key : RsaKey),
       svc.get_public_key = .ok pem → RSA.import_key pem = .ok key →
       (L.signature = none ∨
        (∃ s, L.signature = some s ∧ b64decode s = .error .valueError) ∨
        (∃ s raw, L.signature = some s ∧ b64decode s = .ok raw ∧
           raw ≠ pkcs1_15.sign (SHA256.new (json_dumps_sorted L.get_payload)) key)) →
       svc.verify_signature L = .ok false) := by
  refine ⟨?_, ?_, ?_, server_verify_total, client_verify_total, ?_⟩
  · intro data k
    simp [Server.CryptoUtils.verify_signature, Server.CryptoUtils.verify_signature_attempt,
      b64decodeOpt, exceptValueType, PyError.isValueErrorClass, PyError.isTypeErrorClass]
  · intro data s k hb
    simp [Server.CryptoUtils.verify_signature, Server.CryptoUtils.verify_signature_attempt,
      b64decodeOpt, hb, exceptValueType, PyError.isValueErrorClass, PyError.isTypeErrorClass]
  · intro data s raw k hb hne
    simp [Server.CryptoUtils.verify_signature, Server.CryptoUtils.verify_signature_attempt,
      b64decodeOpt, hb, pkcs1_15.verify, hne, exceptValueType, PyError.isValueErrorClass, PyError.isTypeErrorClass]
  · intro svc L pem key hpub hkey hcase
    rcases hcase with hnone | ⟨s, hs, hb⟩ | ⟨s, raw, hs, hb, hne⟩
    · simp [Client.LicenseService.verify_signature, Client.LicenseService.verify_signature_attempt,
        hpub, hkey, hnone, b64decodeOpt, exceptValueType, PyError.isValueErrorClass, PyError.isTypeErrorClass]
    · simp [Client.LicenseService.verify_signature, Client.LicenseService.verify_signature_attempt,
        hpub, hkey, hs, b64decodeOpt, hb, exceptValueType, PyError.isValueErrorClass, PyError.isTypeErrorClass]
    · simp [Client.LicenseService.verify_signature, Client.LicenseService.verify_signature_attempt,
        hpub, hkey, hs, b64decodeOpt, hb, pkcs1_15.verify, hne, exceptValueType, PyError.isValueErrorClass, PyError.isTypeErrorClass]

/-- C2 witness: an undecodable signature string yields `false`, not an
exception. -/
theorem C2_verify_returns_false_never_raises_witness :
    Server.CryptoUtils.verify_signature [("customer", JVal.jstr "Acme")] (some "garbage") ⟨7⟩ =
      .ok false :=
  C2_verify_returns_false_never_raises.2.1 [("customer", JVal.jstr "Acme")] "garbage" ⟨7⟩
    (by decide)

theorem generate_rsa_keypair_files (pub priv : String) (hne : pub ≠ priv) (key : RsaKey)
    (fs : FileSystem) :
    (Server.CryptoUtils.generate_rsa_keypair pub priv key fs).1.fileContent pub =
      some (publicPem key) ∧
    (Server.CryptoUtils.generate_rsa_keypair pub priv key fs).1.fileContent priv =
      some (privatePem key) := by
  have hne1 : (pub == priv) = false := by simp [hne]
  have hne2 : (priv != pub) = true := by simp [Ne.symm hne]
  constructor
  · simp [Server.CryptoUtils.generate_rsa_keypair, FileSystem.writeFile,
      FileSystem.fileContent, dictGet]
  · simp [Server.CryptoUtils.generate_rsa_keypair, FileSystem.writeFile,
      FileSystem.fileContent, dictGet, hne1, hne2]

theorem keys_exist_after_generate (svc : Server.LicenseService) (key : RsaKey)
    (fs : FileSystem) :
    svc.keys_exist (Server.CryptoUtils.generate_rsa_keypair svc.public_key_path
      svc.private_key_path key fs).1 = true := by
  obtain ⟨h1, h2⟩ := generate_rsa_keypair_files svc.public_key_path svc.private_key_path
    (pub_path_ne_priv_path svc) key fs
  simp [Server.LicenseService.keys_exist, FileSystem.pathExists,
    FileSystem.fileContent] at h1 h2 ⊢
  rw [h1, h2]
  simp

/-- C8: `generate_keys(force=false)` fails with the keys-already-exist
condition whenever a full prior key pair exists (in particular right
after a successful `generate_keys`), and `generate_keys(force=true)`
proceeds and overwrites both key files with the fresh pair. -/
theorem C8_generate_keys_force_semantics :
    (∀ (svc : Server.LicenseService) (fs : FileSystem) (key : RsaKey),
       svc.keys_exist fs = true →
       svc.generate_keys false key fs = .error .fileExistsError) ∧
    (∀ (svc : Server.LicenseService) (fs : FileSystem) (key : RsaKey),
       ∃ fs', svc.generate_keys true key fs =
           .ok (fs', svc.public_key_path, svc.private_key_path) ∧
         fs'.fileContent svc.public_key_path = some (publicPem key) ∧
         fs'.fileContent svc.private_key_path = some (privatePem key) ∧
         svc.keys_exist fs' = true) ∧
    (∀ (svc : Server.LicenseService) (fs : FileSystem) (key key2 : RsaKey)
       (r : FileSystem × String × String),
       svc.generate_keys false key fs = .ok r →
       svc.generate_keys false key2 r.1 = .error .fileExistsError) := by
  refine ⟨?_, ?_, ?_⟩
  · intro svc fs key h
    simp [Server.LicenseService.generate_keys, h]
  · intro svc fs key
    refine ⟨(Server.CryptoUtils.generate_rsa_keypair svc.public_key_path
      svc.private_key_path key fs).1, ?_, ?_, ?_, keys_exist_after_generate svc key fs⟩
    · simp [Server.LicenseService.generate_keys, Server.CryptoUtils.generate_rsa_keypair]
    · exact (generate_rsa_keypair_files _ _ (pub_path_ne_priv_path svc) key fs).1
    · exact (generate_rsa_keypair_files _ _ (pub_path_ne_priv_path svc) key fs).2
  · intro svc fs key key2 r h
    rw [Server.LicenseService.generate_keys] at h
    split at h
    · cases h
    · cases h
      rw [Server.LicenseService.generate_keys]
      have hk := keys_exist_after_generate svc key fs
      simp [hk]

/-- C8 witness: with both key files present, a non-forced `generate_keys`
fails with the keys-already-exist error. -/
theorem C8_generate_keys_force_semantics_witness :
    Server.LicenseService.generate_keys ⟨"keys"⟩ false ⟨5⟩
      ⟨[("keys/pub.pem", publicPem ⟨1⟩), ("keys/priv.pem", privatePem ⟨1⟩)]⟩ =
      .error .fileExistsError :=
  C8_generate_keys_force_semantics.1 ⟨"keys"⟩
    ⟨[("keys/pub.pem", publicPem ⟨1⟩), ("keys/priv.pem", privatePem ⟨1⟩)]⟩ ⟨5⟩ (by decide)

/-- C4: the canonical payload encoding is deterministic — licenses with
equal customer, expiry and bindings encode to byte-identical canonical
payloads; the sorted-key dump is invariant under the insertion order of
any intermediate dict (outer payload and nested binds alike, given
distinct keys); and the issuer-side and verifier-side encoders produce
the same bytes for the same logical license. -/
theorem C4_canonical_determinism :
    (∀ (L1 L2 : Client.License),
       L1.customer = L2.customer → L1.expiry = L2.expiry → L1.bindings = L2.bindings →
       json_dumps_sorted L1.get_payload = json_dumps_sorted L2.get_payload) ∧
    (∀ (p1 p2 : List (String × JVal)), p1.Perm p2 → (p1.map Prod.fst).Nodup →
       json_dumps_sorted p1 = json_dumps_sorted p2) ∧
    (∀ (fs1 fs2 : List (String × List String)), fs1.Perm fs2 → (fs1.map Prod.fst).Nodup →
       dumpsInnerObj fs1 = dumpsInnerObj fs2) ∧
    (∀ (customer expiry : String) (mac host : List String) (s1 s2 : Option String),
       json_dumps_sorted (Server.License.get_payload ⟨customer, expiry, ⟨mac, host⟩, s1⟩) =
         json_dumps_sorted (Client.License.get_payload ⟨customer, expiry, ⟨mac, host⟩, s2⟩)) := by
  refine ⟨?_, ?_, ?_, ?_⟩
  · intro L1 L2 h1 h2 h3
    simp [Client.License.get_payload, h1, h2, h3]
  · intro p1 p2 hp hnd
    rw [json_dumps_sorted, json_dumps_sorted, pySortItems_perm_eq p1 p2 hp hnd]
  · intro fs1 fs2 hp hnd
    rw [dumpsInnerObj, dumpsInnerObj, pySortItems_perm_eq fs1 fs2 hp hnd]
  · intro customer expiry mac host s1 s2
    rfl

/-- C4 witness: two insertion orders of the same payload dict produce the
same canonical bytes. -/
theorem C4_canonical_determinism_witness :
    json_dumps_sorted [("customer", JVal.jstr "Acme"), ("expiry", JVal.jstr "2099-01-01")] =
      json_dumps_sorted [("expiry", JVal.jstr "2099-01-01"), ("customer", JVal.jstr "Acme")] :=
  C4_canonical_determinism.2.1
    [("customer", JVal.jstr "Acme"), ("expiry", JVal.jstr "2099-01-01")]
    [("expiry", JVal.jstr "2099-01-01"), ("customer", JVal.jstr "Acme")]
    (List.Perm.swap _ _ _) (by decide)

/-- C1: `validate_license` settles checks in a fixed strict order —
load/parse failures terminate the pipeline with a status decided by the
load error alone, before and independent of any cryptographic work;
a failed signature check yields INVALID_SIGNATURE regardless of expiry
and bindings; an expired license with a valid signature yields EXPIRED
regardless of bindings; and a MAC-binding failure yields MAC_MISMATCH
regardless of the hostname binding.  In particular a license that is
simultaneously expired, MAC-mismatched and invalidly signed reports
INVALID_SIGNATURE. -/
theorem C1_validation_order :
    (∀ (svc svc' : Client.LicenseService) (env env' : Client.MachineEnv)
       (now now' : Nat) (rb rb' : Bool) (e : PyError),
       svc.load_license = .error e → svc'.load_license = .error e →
       svc.validate_license env now rb = svc'.validate_license env' now' rb' ∧
       ∃ st msg, svc.validate_license env now rb = .ok (st, msg, none) ∧
         (st = Client.LicenseStatus.FILE_NOT_FOUND ∨ st = Client.LicenseStatus.INVALID_FORMAT ∨
          st = Client.LicenseStatus.UNKNOWN_ERROR)) ∧
    (∀ (svc : Client.LicenseService) (env : Client.MachineEnv) (now : Nat) (rb : Bool)
       (L : Client.License),
       svc.load_license = .ok L → svc.verify_signature L = .ok false →
       svc.validate_license env now rb =
         .ok (.INVALID_SIGNATURE, "Invalid license signature", none)) ∧
    (∀ (svc : Client.LicenseService) (env : Client.MachineEnv) (now : Nat) (rb : Bool)
       (L : Client.License),
       svc.load_license = .ok L → svc.verify_signature L = .ok true →
       Client.License.is_expired L now = .ok true →
       svc.validate_license env now rb =
         .ok (.EXPIRED, "License expired on " ++ L.expiry, some L)) ∧
    (∀ (svc : Client.LicenseService) (env : Client.MachineEnv) (now : Nat)
       (L : Client.License),
       svc.load_license = .ok L → svc.verify_signature L = .ok true →
       Client.License.is_expired L now = .ok false →
       L.bindings.mac ≠ [] → Client.LicenseService.check_mac_binding L env = false →
       svc.validate_license env now true =
         .ok (.MAC_MISMATCH,
              "MAC mismatch. Current: " ++ Client.MachineUtils.get_primary_mac env ++
                ", Allowed: " ++ pyListRepr L.bindings.mac,
              some L)) := by
  refine ⟨?_, ?_, ?_, ?_⟩
  · intro svc svc' env env' now now' rb rb' e h h'
    constructor
    · cases e <;> simp [Client.LicenseService.validate_license, h, h']
    · cases e with
      | fileNotFoundError m =>
        exact ⟨.FILE_NOT_FOUND, m,
          by simp [Client.LicenseService.validate_license, h], Or.inl rfl⟩
      | jsonDecodeError =>
        exact ⟨.INVALID_FORMAT, "Invalid license file format",
          by simp [Client.LicenseService.validate_license, h], Or.inr (Or.inl rfl)⟩
      | valueError =>
        exact ⟨.UNKNOWN_ERROR, "Error loading license: " ++ PyError.valueError.pyStr,
          by simp [Client.LicenseService.validate_license, h], Or.inr (Or.inr rfl)⟩
      | typeError =>
        exact ⟨.UNKNOWN_ERROR, "Error loading license: " ++ PyError.typeError.pyStr,
          by simp [Client.LicenseService.validate_license, h], Or.inr (Or.inr rfl)⟩
      | fileExistsError =>
        exact ⟨.UNKNOWN_ERROR, "Error loading license: " ++ PyError.fileExistsError.pyStr,
          by simp [Client.LicenseService.validate_license, h], Or.inr (Or.inr rfl)⟩
      | osError =>
        exact ⟨.UNKNOWN_ERROR, "Error loading license: " ++ PyError.osError.pyStr,
          by simp [Client.LicenseService.validate_license, h], Or.inr (Or.inr rfl)⟩
      | keyError =>
        exact ⟨.UNKNOWN_ERROR, "Error loading license: " ++ PyError.keyError.pyStr,
          by simp [Client.LicenseService.validate_license, h], Or.inr (Or.inr rfl)⟩
  · intro svc env now rb L hload hver
    simp [Client.LicenseService.validate_license, hload, hver]
  · intro svc env now rb L hload hver hexp
    simp [Client.LicenseService.validate_license, hload, hver, hexp]
  · intro svc env now L hload hver hexp hmac hcheck
    have hm : L.bindings.mac.isEmpty = false := by
      simp [List.isEmpty_iff, hmac]
    have hb : L.bindings.has_bindings = true := by
      simp [Client.LicenseBindings.has_bindings, hm]
    simp [Client.LicenseService.validate_license, hload, hver, hexp, hb, hm, hcheck]

/-- license used in the C1 witness: expired, MAC-bound elsewhere, and with
an undecodable signature. -/
def c1License : Client.License :=
  ⟨"Acme", "2000-01-01", ⟨["11:22:33:44:55:66"], []⟩, some "garbage"⟩

/-- service state used in the C1 witness. -/
def c1Svc : Client.LicenseService :=
  ⟨"license.lic", true,
   .ok ⟨some ⟨some "Acme", some "2000-01-01", some ⟨[("mac", ["11:22:33:44:55:66"])]⟩⟩,
        some "garbage"⟩,
   none, .ok (publicPem ⟨7⟩)⟩

/-- C1 witness: a license that is expired, MAC-bound to another machine
and carries an undecodable signature reports INVALID_SIGNATURE, not
EXPIRED or MAC_MISMATCH. -/
theorem C1_validation_order_witness :
    Client.LicenseService.validate_license c1Svc ⟨187723572702975, "otherhost"⟩
      63844848000 true = .ok (.INVALID_SIGNATURE, "Invalid license signature", none) :=
  C1_validation_order.2.1 c1Svc ⟨187723572702975, "otherhost"⟩ 63844848000 true c1License
    (by decide) (by decide)

/-- After signature success and a non-expired parse, the pipeline can only
end in a binding mismatch or validity. -/
theorem validate_after_not_expired (svc : Client.LicenseService) (env : Client.MachineEnv)
    (now : Nat) (rb : Bool) (L : Client.License)
    (hload : svc.load_license = .ok L) (hver : svc.verify_signature L = .ok true)
    (hexp : Client.License.is_expired L now = .ok false)
    (st : Client.LicenseStatus) (msg : String) (lo : Option Client.License)
    (hv : svc.validate_license env now rb = .ok (st, msg, lo)) :
    st = Client.LicenseStatus.MAC_MISMATCH ∨ st = Client.LicenseStatus.HOSTNAME_MISMATCH ∨
      st = Client.LicenseStatus.VALID := by
  simp only [Client.LicenseService.validate_license, hload, hver, hexp, Bool.not_true,
    Bool.false_eq_true, if_false] at hv
  split at hv
  · split at hv
    · simp at hv
      obtain ⟨h1, _, _⟩ := hv
      subst h1
      exact Or.inl rfl
    · split at hv
      · simp at hv
        obtain ⟨h1, _, _⟩ := hv
        subst h1
        exact Or.inr (Or.inl rfl)
      · rw [Client.LicenseService.validate_license_valid_tail] at hv
        split at hv
        · cases hv
        · simp at hv
          obtain ⟨h1, _, _⟩ := hv
          subst h1
          exact Or.inr (Or.inr rfl)
  · rw [Client.LicenseService.validate_license_valid_tail] at hv
    split at hv
    · cases hv
    · simp at hv
      obtain ⟨h1, _, _⟩ := hv
      subst h1
      exact Or.inr (Or.inr rfl)

/-- C6: for a license whose signature verifies (and whose expiry string
parses as a calendar date), `validate_license` reports EXPIRED iff the
current UTC instant is strictly past UTC midnight at the start of the
expiry date; in that case the message contains the expiry date string
and the triple carries the license object. -/
theorem C6_expired_iff_past_midnight :
    ∀ (svc : Client.LicenseService) (env : Client.MachineEnv) (now : Nat) (rb : Bool)
      (L : Client.License) (d : Nat × Nat × Nat),
      svc.load_license = .ok L →
      svc.verify_signature L = .ok true →
      datetime_fromisoformat L.expiry = .ok d →
      ((∃ msg lo, svc.validate_license env now rb =
          .ok (Client.LicenseStatus.EXPIRED, msg, lo)) ↔ now > dateMidnightSec d) ∧
      (now > dateMidnightSec d →
        svc.validate_license env now rb =
          .ok (Client.LicenseStatus.EXPIRED, "License expired on " ++ L.expiry, some L) ∧
        L.expiry.toList <:+: ("License expired on " ++ L.expiry).toList) := by
  intro svc env now rb L d hload hver hd
  have hinfix : L.expiry.toList <:+: ("License expired on " ++ L.expiry).toList := by
    have : ("License expired on " ++ L.expiry).toList =
        "License expired on ".toList ++ L.expiry.toList := by
      cases L.expiry with
      | mk cs => rfl
    rw [this]
    exact (List.suffix_append _ _).isInfix
  constructor
  · constructor
    · rintro ⟨msg, lo, hv⟩
      by_cases hgt : now > dateMidnightSec d
      · exact hgt
      · have hexp : Client.License.is_expired L now = .ok false := by
          simp [Client.License.is_expired, Client.License.get_expiry_date, hd, hgt]
        rcases validate_after_not_expired svc env now rb L hload hver hexp _ _ _ hv with
          h | h | h <;> cases h
    · intro hgt
      have hexp : Client.License.is_expired L now = .ok true := by
        simp [Client.License.is_expired, Client.License.get_expiry_date, hd, hgt]
      exact ⟨"License expired on " ++ L.expiry, some L,
        by simp [Client.LicenseService.validate_license, hload, hver, hexp]⟩
  · intro hgt
    have hexp : Client.License.is_expired L now = .ok true := by
      simp [Client.License.is_expired, Client.License.get_expiry_date, hd, hgt]
    exact ⟨by simp [Client.LicenseService.validate_license, hload, hver, hexp], hinfix⟩

/-- license used in the C6 witness: expired, properly signed. -/
def c6License : Client.License :=
  ⟨"Acme", "2000-01-01", ⟨[], []⟩,
   some (Server.CryptoUtils.sign_data
     [("customer", JVal.jstr "Acme"), ("expiry", JVal.jstr "2000-01-01"),
      ("binds", JVal.jobj [])] ⟨7⟩)⟩

/-- service state used in the C6 witness. -/
def c6Svc : Client.LicenseService :=
  ⟨"license.lic", true,
   .ok ⟨some ⟨some "Acme", some "2000-01-01", some ⟨[]⟩⟩, c6License.signature⟩,
   none, .ok (publicPem ⟨7⟩)⟩

/-- C6 witness: a correctly signed license expiring 2000-01-01 validates
as EXPIRED in 2024 with the expiry date in the message. -/
theorem C6_expired_iff_past_midnight_witness :
    Client.LicenseService.validate_license c6Svc ⟨0, "h"⟩ 63844848000 true =
      .ok (Client.LicenseStatus.EXPIRED, "License expired on " ++ c6License.expiry,
           some c6License) ∧
    c6License.expiry.toList <:+:
      ("License expired on " ++ c6License.expiry).toList :=
  (C6_expired_iff_past_midnight c6Svc ⟨0, "h"⟩ 63844848000 true c6License (2000, 1, 1)
    (by decide) (by decide) (by decide)).2 (by decide)

/-- C3 counterexample: a license that loads and parses fine, paired with
a missing public-key file and no embedded key, makes `validate_license`
propagate the `FileNotFoundError` raised inside `verify_signature`
(whose `except` clause only catches `ValueError`/`TypeError`) instead of
returning a status triple. -/
theorem C3_pubkey_fault_escapes :
    Client.LicenseService.validate_license
      ⟨"license.lic", true,
       .ok ⟨some ⟨some "Acme", some "2099-01-01", none⟩, some "garbage"⟩,
       none, .error (.fileNotFoundError "No such file or directory: pub.pem")⟩
      ⟨0, "h"⟩ 0 true =
      .error (.fileNotFoundError "No such file or directory: pub.pem") := by
  decide

/-- C3 amended: `validate_license` returns a status triple and never
propagates an exception for every license-source fault (missing file,
malformed bytes, malformed record), and, whenever the public key is
obtainable (embedded or readable from file) and the loaded license's
expiry string parses, for every other input as well; only a failing
public-key read or an unparseable expiry on a loaded license escapes. -/
theorem C3_validate_total_amended :
    ∀ (svc : Client.LicenseService) (env : Client.MachineEnv) (now : Nat) (rb : Bool),
      (∀ L : Client.License, svc.load_license = .ok L →
        (∃ pem, svc.get_public_key = .ok pem) ∧
        (∃ d, datetime_fromisoformat L.expiry = .ok d)) →
      ∃ t, svc.validate_license env now rb = .ok t := by
  intro svc env now rb h
  cases hload : svc.load_license with
  | error e =>
    cases e <;> simp [Client.LicenseService.validate_license, hload]
  | ok L =>
    obtain ⟨⟨pem, hpub⟩, ⟨d, hd⟩⟩ := h L hload
    obtain ⟨b, hver⟩ := client_verify_total svc L pem hpub
    cases b with
    | false =>
      simp [Client.LicenseService.validate_license, hload, hver]
    | true =>
      have hexp : Client.License.is_expired L now = .ok (decide (now > dateMidnightSec d)) := by
        simp [Client.License.is_expired, Client.License.get_expiry_date, hd]
      have hdays : Client.License.days_until_expiry L now =
          .ok (Int.fdiv ((dateMidnightSec d : Int) - (now : Int)) 86400) := by
        simp [Client.License.days_until_expiry, Client.License.get_expiry_date, hd]
      by_cases hgt : now > dateMidnightSec d
      · simp [Client.LicenseService.validate_license, hload, hver, hexp, hgt]
      · simp only [Client.LicenseService.validate_license, hload, hver, hexp, hgt, Bool.not_true,
          Bool.false_eq_true, if_false, decide_eq_true_eq,
          Client.LicenseService.validate_license_valid_tail, hdays]
        split
        · split
          · exact ⟨_, rfl⟩
          · split
            · exact ⟨_, rfl⟩
            · exact ⟨_, rfl⟩
        · exact ⟨_, rfl⟩

/-- license used in the C3 witness. -/
def c3License : Client.License :=
  ⟨"Acme", "2099-01-01", ⟨[], []⟩,
   some (Server.CryptoUtils.sign_data
     [("customer", JVal.jstr "Acme"), ("expiry", JVal.jstr "2099-01-01"),
      ("binds", JVal.jobj [])] ⟨7⟩)⟩

/-- service state used in the C3 witness. -/
def c3Svc : Client.LicenseService :=
  ⟨"license.lic", true,
   .ok ⟨some ⟨some "Acme", some "2099-01-01", some ⟨[]⟩⟩, c3License.signature⟩,
   none, .ok (publicPem ⟨7⟩)⟩

/-- C3 amended witness: a concrete well-formed input produces a status
triple. -/
theorem C3_validate_total_amended_witness :
    ∃ t, Client.LicenseService.validate_license c3Svc ⟨0, "h"⟩ 63082281600 true = .ok t :=
  C3_validate_total_amended c3Svc ⟨0, "h"⟩ 63082281600 true (by
    intro L hL
    have hL0 : Client.LicenseService.load_license c3Svc = .ok c3License := by decide
    rw [hL0] at hL
    cases hL
    exact ⟨⟨publicPem ⟨7⟩, by decide⟩, ⟨(2099, 1, 1), by decide⟩⟩)
